import Mathlib

/-!
Verification of the journaling-assistant backend ("journaLLM").

Shallow embedding of the context-assembly, chat-endpoint, LLM-client and
ingestion pathways.  Python strings are modelled as `String` (or `List Char`
where character-level manipulation matters), Python numbers as `ℚ`/`Int`,
Python `None` as `Option.none`.  Each definition is translated from the
corresponding function in `src/backend`.
-/

set_option autoImplicit false

namespace JournaLLM

/-! ### Python string helpers -/

/-- Python truthiness of an optional string combined with `or default`:
`value or default` yields `default` when the value is `None` or empty. -/
def pyOrStr (v : Option String) (default : String) : String :=
  match v with
  | some s => if s.isEmpty then default else s
  | none => default

/-- The whitespace set of Python `str.strip()` / regex `\s` (ASCII part). -/
def pySpace (c : Char) : Bool :=
  c = ' ' || c = '\t' || c = '\n' || c = '\r' || c = '\x0b' || c = '\x0c'

/-- Python `str.lstrip()` on a character list. -/
def lstripL (s : List Char) : List Char := s.dropWhile pySpace

/-- Python `str.rstrip()` on a character list. -/
def rstripL (s : List Char) : List Char := (s.reverse.dropWhile pySpace).reverse

/-- Python `str.strip()` on a character list. -/
def pyStrip (s : List Char) : List Char := rstripL (lstripL s)

/-- `str.replace(a, b)` for single characters. -/
def replaceChar (a b : Char) (s : String) : String :=
  ⟨s.data.map fun c => if c = a then b else c⟩

/-- Worker for `pyTitle`: the flag records whether the previous character
was alphabetic. -/
def pyTitleGo : Bool → List Char → List Char
  | _, [] => []
  | prevAlpha, c :: rest =>
    (if c.isAlpha then (if prevAlpha then c.toLower else c.toUpper) else c)
      :: pyTitleGo c.isAlpha rest

/-- Python `str.title()`: uppercase each letter that follows a non-letter,
lowercase the others. -/
def pyTitle (s : String) : String := ⟨pyTitleGo false s.data⟩

/-- Rendering of a Python float that is an exact multiple of `1/100`
(every displayed average is, having been rounded to 2 decimals):
`7 ↦ "7.0"`, `7.5 ↦ "7.5"`, `7.33 ↦ "7.33"`, `7.05 ↦ "7.05"`. -/
def pyFloatRepr (q : ℚ) : String :=
  let sign := if q < 0 then "-" else ""
  let a : ℚ := |q|
  let whole : ℕ := a.floor.toNat
  let cents : ℕ := ((a - a.floor) * 100).floor.toNat
  if cents = 0 then sign ++ toString whole ++ ".0"
  else if cents % 10 = 0 then sign ++ toString whole ++ "." ++ toString (cents / 10)
  else if cents < 10 then sign ++ toString whole ++ ".0" ++ toString cents
  else sign ++ toString whole ++ "." ++ toString cents

/-! ### Dates (`datetime.date`) -/

/-- A calendar date; comparison is chronological, i.e. lexicographic on
(year, month, day). -/
structure Date where
  year : ℕ
  month : ℕ
  day : ℕ
deriving Repr, DecidableEq

/-- Python `date.__lt__` (chronological order). -/
def Date.ltb (a b : Date) : Bool :=
  a.year < b.year ||
    (a.year = b.year && (a.month < b.month ||
      (a.month = b.month && a.day < b.day)))

/-- Zero-pad the decimal rendering of `n` to width `w`. -/
def padNat (w n : ℕ) : String :=
  let s := toString n
  ⟨List.replicate (w - s.length) '0'⟩ ++ s

/-- `date.strftime("%Y-%m-%d")`. -/
def Date.iso (d : Date) : String :=
  padNat 4 d.year ++ "-" ++ padNat 2 d.month ++ "-" ++ padNat 2 d.day

/-! ### Entry records (shape produced by `repository._serialize_entry`) -/

/-- One serialized event dict. -/
structure EventRec where
  eid : Int
  description : String
  category : String
  effect_on_mood : Int
  people : List String
deriving Repr, DecidableEq

/-- The four-field metrics dict; each value may be `None`. -/
structure MetricsRec where
  mood_score : Option ℚ
  energy_score : Option ℚ
  stress_score : Option ℚ
  sleep_hours : Option ℚ
deriving Repr, DecidableEq

/-- One serialized entry dict.  `metrics = none` models an entry dict
without a (truthy) metrics record. -/
structure EntryRec where
  eid : Int
  date : Date
  summary : Option String
  metrics : Option MetricsRec
  events : List EventRec
  source_path : String
deriving Repr, DecidableEq

/-- `metrics.get(key)` for the four metric keys of the dict. -/
def MetricsRec.get (m : MetricsRec) (key : String) : Option ℚ :=
  if key = "mood_score" then m.mood_score
  else if key = "energy_score" then m.energy_score
  else if key = "stress_score" then m.stress_score
  else if key = "sleep_hours" then m.sleep_hours
  else none

/-! ### `context_builder.py` -/

/-- Round-half-to-even to the nearest integer (the rounding of Python
`round`). -/
def roundHalfEven (q : ℚ) : ℤ :=
  if q - ⌊q⌋ = 1/2 then (if ⌊q⌋ % 2 = 0 then ⌊q⌋ else ⌊q⌋ + 1)
  else ⌊q + 1/2⌋

/-- Python `round(x, 2)`. -/
def round2 (q : ℚ) : ℚ := (roundHalfEven (q * 100) : ℚ) / 100

/-- `context_builder._avg`: keep the numeric values, return `None` when
none remain, otherwise the mean rounded to 2 decimals. -/
def _avg (values : List (Option ℚ)) : Option ℚ :=
  let clean := values.filterMap id
  if clean.isEmpty then none
  else some (round2 (clean.sum / (clean.length : ℚ)))

/-- `context_builder._format_metric_line`: label each present metric with
`key.replace('_', ' ').title()`, join with `" | "`, fall back to
`"No metrics available."`. -/
def _format_metric_line (metrics : MetricsRec) : String :=
  let parts := ["mood_score", "energy_score", "stress_score", "sleep_hours"].filterMap
    fun key => (metrics.get key).map
      fun value => pyTitle (replaceChar '_' ' ' key) ++ ": " ++ pyFloatRepr value
  if parts.isEmpty then "No metrics available." else String.intercalate " | " parts

/-- The per-metric averages dict built at the top of
`context_builder._build_context_payload`. -/
def contextMetrics (entries : List EntryRec) : MetricsRec where
  mood_score := _avg (entries.filterMap fun e => e.metrics.map (·.mood_score))
  energy_score := _avg (entries.filterMap fun e => e.metrics.map (·.energy_score))
  stress_score := _avg (entries.filterMap fun e => e.metrics.map (·.stress_score))
  sleep_hours := _avg (entries.filterMap fun e => e.metrics.map (·.sleep_hours))

/-- The narrative line `_build_context_payload` appends for one entry. -/
def entryLine (entry : EntryRec) : String :=
  let date_str := entry.date.iso
  let summary := pyOrStr entry.summary "(no summary)"
  let event_text :=
    match entry.events.head? with
    | some top_event =>
      "Key event: " ++ top_event.description ++
        (if top_event.people.isEmpty then ""
         else " (people: " ++ String.intercalate ", " top_event.people ++ ")")
    | none => "No events captured."
  "- " ++ date_str ++ ": " ++ summary ++ " | " ++ event_text

/-- The `lines` list assembled by `_build_context_payload`. -/
def contextLines (entries : List EntryRec) (coverage_line : String) : List String :=
  [coverage_line, "Averages → " ++ _format_metric_line (contextMetrics entries)]
    ++ entries.map entryLine

/-- The dict returned by `_build_context_payload`. -/
structure ContextPayload where
  entries : List EntryRec
  metrics : MetricsRec
  text : String
deriving Repr, DecidableEq

/-- `context_builder._build_context_payload`. -/
def _build_context_payload (entries : List EntryRec) (coverage_line : String) :
    ContextPayload where
  entries := entries
  metrics := contextMetrics entries
  text := String.intercalate "\n" (contextLines entries coverage_line)

/-! ### `api/chat.py` -/

/-- One element of the request `history`. -/
structure ChatMessage where
  role : String
  content : String
deriving Repr, DecidableEq

/-- The body of `POST /api/chat/`. -/
structure ChatRequest where
  message : String
  start_date : Date
  end_date : Date
  history : List ChatMessage
deriving Repr, DecidableEq

/-- The response body of the chat endpoint. -/
structure ChatResponse where
  response : String
  start_date : Date
  end_date : Date
deriving Repr, DecidableEq

/-- The history-pairing loop of `chat`: scan two at a time, keep a pair
when the even-indexed element is a user message immediately followed by an
assistant message. -/
def pairHistory : List ChatMessage → List (String × String)
  | u :: a :: rest =>
    (if u.role = "user" && a.role = "assistant" then [(u.content, a.content)] else [])
      ++ pairHistory rest
  | _ => []

/-- The `chat` endpoint handler, parameterised by the backend call
`chat_with_journal_context` (which internally performs the persistence
read and the model call).  Errors are `(HTTP status, detail)`. -/
def chatEndpoint
    (backend : String → Date → Date → Option (List (String × String)) → Except String String)
    (request : ChatRequest) : Except (ℕ × String) ChatResponse :=
  if Date.ltb request.end_date request.start_date then
    Except.error (400, "Start date must be on or before end date")
  else
    let history_tuples := pairHistory request.history
    match backend request.message request.start_date request.end_date
        (if history_tuples.isEmpty then none else some history_tuples) with
    | Except.error e =>
      Except.error (500, "Failed to get response from assistant: " ++ e)
    | Except.ok response =>
      Except.ok ⟨response, request.start_date, request.end_date⟩

/-! ### `services/llm_client.py`: history encoding and prompt body -/

/-- The history loop of `chat_with_journal_context`
(`enumerate(history, start=1)`). -/
def encodeHistoryFrom (idx : ℕ) : List (String × String) → List String
  | [] => []
  | (user_msg, assistant_msg) :: rest =>
    (toString idx ++ ". User: " ++ user_msg)
      :: (toString idx ++ ". Assistant: " ++ assistant_msg)
      :: encodeHistoryFrom (idx + 1) rest

/-- The rendered history block, numbered from 1. -/
def encodeHistory (history : List (String × String)) : List String :=
  encodeHistoryFrom 1 history

/-- The `parts` list assembled by `chat_with_journal_context` before the
final join (`history = none` models the `None` default; an empty list is
equally falsy). -/
def buildChatParts (context_text message : String)
    (history : Option (List (String × String))) : List String :=
  ["=== Journal Context Start ===", context_text, "=== Journal Context End ===", ""]
    ++ (match history with
        | some h => if h.isEmpty then [] else ["Conversation history:"] ++ encodeHistory h ++ [""]
        | none => [])
    ++ ["User question: " ++ message]

/-- The `user_content` string sent to the model. -/
def chatUserContent (context_text message : String)
    (history : Option (List (String × String))) : String :=
  String.intercalate "\n" (buildChatParts context_text message history)

/-! ### `services/llm_client.py`: JSON response cleanup -/

/-- Removal of the opening code fence, applied only when the text starts
with three backticks: drop them, drop an optional literal `json` tag, then
drop the whitespace matched by the greedy `\s*` (which also covers the
trailing `\n?` of the pattern). -/
def dropOpenFence (s : List Char) : List Char :=
  let s1 := s.drop 3
  let s2 := if "json".data.isPrefixOf s1 then s1.drop 4 else s1
  s2.dropWhile pySpace

/-- The optional `\n?` of the closing-fence pattern: drop one trailing
newline if present. -/
def dropTrailingNewline (s : List Char) : List Char :=
  if s.getLast? = some '\n' then s.take (s.length - 1) else s

/-- Removal of the closing code fence: the pattern matches a final run of
three backticks followed only by whitespace, together with one optional
newline just before the backticks; when no such suffix exists the text is
unchanged. -/
def dropCloseFence (s : List Char) : List Char :=
  if "```".data.isSuffixOf (rstripL s) then
    dropTrailingNewline ((rstripL s).take ((rstripL s).length - 3))
  else s

/-- `s.find '{'`: index of the first occurrence, if any. -/
def findIdxOf (c : Char) (s : List Char) : Option ℕ :=
  s.findIdx? (· = c)

/-- `s.rfind '}'`: index of the last occurrence, if any. -/
def rfindIdxOf (c : Char) (s : List Char) : Option ℕ :=
  (s.reverse.findIdx? (· = c)).map fun k => s.length - 1 - k

/-- The clamp of `_clean_json_response`: when a `{` occurs and the last
`}` is not before it, keep the slice from the first `{` through the last
`}`. -/
def clampBraces (s : List Char) : List Char :=
  match findIdxOf '{' s, rfindIdxOf '}' s with
  | some i, some j => if i ≤ j then (s.drop i).take (j - i + 1) else s
  | _, _ => s

/-- `llm_client._clean_json_response`. -/
def _clean_json_response (raw_text : List Char) : List Char :=
  let t0 := pyStrip raw_text
  let t1 := if "```".data.isPrefixOf t0 then dropCloseFence (dropOpenFence t0) else t0
  pyStrip (clampBraces t1)

/-! ### `services/llm_client.py`: metadata extraction -/

/-- One event object of the extraction schema; numeric JSON values are
modelled as `ℚ`, with `none` for absent/null/unparseable fields. -/
structure RawEvent where
  description : Option String
  category : Option String
  effect_on_mood : Option ℚ
  people : Option (List String)
deriving Repr, DecidableEq

/-- The metrics object of the extraction schema. -/
structure RawMetrics where
  mood_score : Option ℚ
  energy_score : Option ℚ
  stress_score : Option ℚ
  sleep_hours : Option ℚ
deriving Repr, DecidableEq

/-- The parsed extraction result. -/
structure RawMetadata where
  summary : Option String
  metrics : Option RawMetrics
  events : Option (List RawEvent)
deriving Repr, DecidableEq

/-- `llm_client.extract_journal_metadata`, parameterised by the JSON
parser (`json.loads`) and applied to the raw model response; on a parse
error the raised message carries the parse detail and the first 500
characters of the raw text. -/
def extract_journal_metadata
    (parseJson : List Char → Except (List Char) RawMetadata)
    (raw_text : List Char) : Except (List Char) RawMetadata :=
  match parseJson (_clean_json_response raw_text) with
  | Except.ok data => Except.ok data
  | Except.error e =>
    Except.error ("Failed to parse Ollama JSON: ".data ++ e ++ "\nRaw: ".data
      ++ raw_text.take 500)

/-! ### `ingest_journal.py` and the stored state -/

/-- `ingest_journal._safe_int` on a JSON numeric value (`int(·)` truncates
toward zero; `None`/unparseable falls back to the default). -/
def _safe_int (value : Option ℚ) (default : Int) : Int :=
  match value with
  | some q => if q ≥ 0 then ⌊q⌋ else -⌊-q⌋
  | none => default

/-- `ingest_journal._safe_float`. -/
def _safe_float (value : Option ℚ) (default : ℚ) : ℚ :=
  value.getD default

/-- The `journal_metadata` row created for an entry. -/
structure StoredMeta where
  summary : Option String
  mood_score : Int
  energy_score : Int
  stress_score : Int
  sleep_hours : ℚ
deriving Repr, DecidableEq

/-- An `events` row together with its owned `people` rows. -/
structure StoredEvent where
  description : String
  category : String
  effect_on_mood : Int
  people : List String
deriving Repr, DecidableEq

/-- A `journal_entries` row together with its owned children. -/
structure StoredEntry where
  entry_date : Date
  source_path : String
  raw_text : String
  file_hash : String
  metadata : Option StoredMeta
  events : List StoredEvent
deriving Repr, DecidableEq

/-- The persisted database state. -/
structure Store where
  entries : List StoredEntry
deriving Repr, DecidableEq

/-- The `Event` row (with its people) built from one extracted event
payload: blank descriptions stay blank, a missing/blank category becomes
`"other"`, falsy person names are dropped and the rest stripped. -/
def buildStoredEvent (event_payload : RawEvent) : StoredEvent where
  description := (pyOrStr event_payload.description "").trim
  category :=
    let c := (pyOrStr event_payload.category "other").trim
    if c.isEmpty then "other" else c
  effect_on_mood := _safe_int event_payload.effect_on_mood 0
  people := (event_payload.people.getD []).filterMap
    fun person_name => if person_name.isEmpty then none else some person_name.trim

/-- The fresh `JournalEntry` row (with metadata and events) built by the
non-skip branch of `ingest_journal` from the extraction result. -/
def buildStoredEntry (entry_date : Date) (path text file_hash : String)
    (metadata : RawMetadata) : StoredEntry :=
  let metrics := metadata.metrics.getD ⟨none, none, none, none⟩
  { entry_date := entry_date
    source_path := path
    raw_text := text
    file_hash := file_hash
    metadata := some
      { summary := metadata.summary
        mood_score := _safe_int metrics.mood_score 5
        energy_score := _safe_int metrics.energy_score 5
        stress_score := _safe_int metrics.stress_score 5
        sleep_hours := _safe_float metrics.sleep_hours 7.0 }
    events := (metadata.events.getD []).map buildStoredEvent }

/-- `ingest_journal.ingest_journal`, parameterised by the content hash
(`hashlib.sha256(...).hexdigest()`) and by the extraction call (which
wraps the model).  Returns the new store together with `ok processed` or
the raised error; the session commits only on success, so on any error the
store is unchanged. -/
def ingest_journal
    (extract : String → Except (List Char) RawMetadata)
    (contentHash : String → String)
    (store : Store) (path text : String) (entry_date : Date)
    (skip_if_unchanged : Bool) : Store × Except (List Char) Bool :=
  let file_hash := contentHash text
  match store.entries.filter (fun e => e.source_path = path) with
  | _ :: _ :: _ =>
    -- `one_or_none()` raises MultipleResultsFound
    (store, Except.error "Multiple rows were found when one or none was required".data)
  | matches_ =>
    let existing := matches_.head?
    if existing.any (fun ex => skip_if_unchanged && ex.file_hash = file_hash) then
      (store, Except.ok false)
    else
      match extract text with
      | Except.error e => (store, Except.error e)
      | Except.ok metadata =>
        let remaining :=
          match existing with
          | some _ => store.entries.filter (fun e => ¬ e.source_path = path)
          | none => store.entries
        (⟨remaining ++ [buildStoredEntry entry_date path text file_hash metadata]⟩,
          Except.ok true)

/-! ### `services/whoop_client.py` -/

/-- The decoded JSON body of a WHOOP paginated response (`records` plus an
optional continuation token); `α` is the opaque record type. -/
structure WhoopResult (α : Type) where
  records : List α
  next_token : Option String
deriving Repr, DecidableEq

/-- An HTTP response received by `WhoopClient._get`: the status code and
the decoded body. -/
structure WhoopResponse (α : Type) where
  status_code : ℕ
  body : WhoopResult α
deriving Repr, DecidableEq

/-- The detail carried by `httpx.Response.raise_for_status`. -/
def httpStatusDetail (status_code : ℕ) : String :=
  "HTTP status error " ++ toString status_code

/-- `WhoopClient._get`: a 404 is mapped to `{"records": []}`, any other
non-2xx status raises, a 2xx returns the decoded body. -/
def whoopGet {α : Type} (response : WhoopResponse α) : Except String (WhoopResult α) :=
  if response.status_code = 404 then Except.ok ⟨[], none⟩
  else if 200 ≤ response.status_code ∧ response.status_code < 300 then
    Except.ok response.body
  else Except.error (httpStatusDetail response.status_code)

/-! ### Spec-side definitions (written from the specification's words) -/

/-- Spec side: the values of one metric field, taken only over entries
whose metrics record is present and whose field value is a number. -/
def specFieldValues (entries : List EntryRec) (field : MetricsRec → Option ℚ) : List ℚ :=
  entries.filterMap fun e =>
    match e.metrics with
    | some m => field m
    | none => none

/-- Spec side: the per-metric average — the arithmetic mean of
`specFieldValues`, rounded to 2 decimal places, or `none` when no entry
carries the metric. -/
def specFieldAverage (entries : List EntryRec) (field : MetricsRec → Option ℚ) : Option ℚ :=
  let vals := specFieldValues entries field
  if vals = [] then none
  else some (round2 (vals.sum / (vals.length : ℚ)))

/-- Spec side: the metric summary with the literal human-readable titles,
in the fixed order, omitting absent metrics, falling back to
`"No metrics available."`. -/
def specMetricLine (m : MetricsRec) : String :=
  let parts :=
    [("Mood Score", m.mood_score), ("Energy Score", m.energy_score),
      ("Stress Score", m.stress_score), ("Sleep Hours", m.sleep_hours)].filterMap
      fun lv => lv.2.map fun value => lv.1 ++ ": " ++ pyFloatRepr value
  if parts.isEmpty then "No metrics available." else String.intercalate " | " parts

/-- Spec side: the pair kept for chunk `k` of the history — only when the
element at even index `2k` has role `"user"` and the immediately following
element has role `"assistant"`. -/
def specChunk (history : List ChatMessage) (k : ℕ) : Option (String × String) :=
  match history.get? (2 * k), history.get? (2 * k + 1) with
  | some x, some y =>
    if x.role = "user" && y.role = "assistant" then some (x.content, y.content) else none
  | _, _ => none

/-- Spec side: the (user, assistant) pairs obtained by scanning the
history two-at-a-time. -/
def specHistoryPairs (history : List ChatMessage) : List (String × String) :=
  (List.range (history.length / 2)).filterMap (specChunk history)

/-- Spec side: the two rendered lines for an indexed turn, where the
index is 0-based and the displayed number is 1-based. -/
def specTurnLines (p : ℕ × (String × String)) : List String :=
  [toString (p.1 + 1) ++ ". User: " ++ p.2.1,
    toString (p.1 + 1) ++ ". Assistant: " ++ p.2.2]

/-- Spec side: the history block — two lines per turn, numbered from 1 in
chronological order, pairing preserved. -/
def specHistoryBlock (history : List (String × String)) : List String :=
  history.enum.flatMap specTurnLines

/-! ### Helper lemmas -/

theorem avg_eq_specFieldAverage (entries : List EntryRec) (g : MetricsRec → Option ℚ) :
    _avg (entries.filterMap fun e => e.metrics.map g) = specFieldAverage entries g := by
  unfold _avg specFieldAverage specFieldValues
  have hc : ((entries.filterMap fun e => e.metrics.map g).filterMap id)
      = entries.filterMap fun e =>
          match e.metrics with
          | some m => g m
          | none => none := by
    rw [List.filterMap_filterMap]
    refine List.filterMap_congr ?_
    intro e _
    cases e.metrics <;> rfl
  simp only [hc, List.isEmpty_iff]

theorem format_metric_line_eq_spec (m : MetricsRec) :
    _format_metric_line m = specMetricLine m := by
  obtain ⟨a, b, c, d⟩ := m
  cases a <;> cases b <;> cases c <;> cases d <;> rfl

/-! ### Claims -/

/-- C1: for every list of entry records and each of the four metric
fields, the per-metric average in the built context equals the arithmetic
mean, rounded to 2 decimal places, of that field taken only over entries
whose metrics record is present and whose field value is a number;
entries without metrics are excluded, and if no entry carries the metric
the average is `none` (never zero). -/
theorem metric_averages_match_spec (entries : List EntryRec) (coverage_line : String) :
    (_build_context_payload entries coverage_line).metrics.mood_score
        = specFieldAverage entries (·.mood_score)
    ∧ (_build_context_payload entries coverage_line).metrics.energy_score
        = specFieldAverage entries (·.energy_score)
    ∧ (_build_context_payload entries coverage_line).metrics.stress_score
        = specFieldAverage entries (·.stress_score)
    ∧ (_build_context_payload entries coverage_line).metrics.sleep_hours
        = specFieldAverage entries (·.sleep_hours)
    ∧ (specFieldValues entries (·.mood_score) = []
        → (_build_context_payload entries coverage_line).metrics.mood_score = none) :=
  ⟨avg_eq_specFieldAverage entries _, avg_eq_specFieldAverage entries _,
    avg_eq_specFieldAverage entries _, avg_eq_specFieldAverage entries _,
    fun h => by
      rw [show (_build_context_payload entries coverage_line).metrics.mood_score
          = _avg (entries.filterMap fun e => e.metrics.map (·.mood_score)) from rfl,
        avg_eq_specFieldAverage entries _, specFieldAverage, h]
      rfl⟩

/-- Witness for C1 at a concrete input: a one-entry list whose entry has
no metrics record, so the hypothesis of the final conjunct holds and the
mood average is reported as `none`. -/
theorem metric_averages_match_spec_witness :
    (_build_context_payload [⟨1, ⟨2024, 2, 1⟩, some "a", none, [], "p1"⟩]
        "cov").metrics.mood_score = none :=
  (metric_averages_match_spec [⟨1, ⟨2024, 2, 1⟩, some "a", none, [], "p1"⟩]
    "cov").2.2.2.2 (by decide)

/-- C2: each entry's narrative line is its ISO date, a separator, its
summary (placeholder `"(no summary)"` when absent), a separator, then
either `Key event: <description>` for the first event only — with
`" (people: ...)"` appended when that event has people — or
`"No events captured."`; events beyond the first never influence the
text, all events remain in the structured entry list, and the concrete
round-trip example holds. -/
theorem narrative_line_first_event_only :
    (∀ (entries : List EntryRec) (coverage_line : String),
      (_build_context_payload entries coverage_line).entries = entries)
    ∧ (∀ (entries : List EntryRec) (coverage_line : String),
      (contextLines entries coverage_line).drop 2 = entries.map entryLine)
    ∧ (∀ e : EntryRec, entryLine e = entryLine {e with events := e.events.take 1})
    ∧ (∀ (e : EntryRec) (ev : EventRec) (evs : List EventRec),
      entryLine {e with events := ev :: evs}
        = "- " ++ e.date.iso ++ ": " ++ pyOrStr e.summary "(no summary)" ++ " | "
          ++ ("Key event: " ++ ev.description
            ++ (if ev.people.isEmpty then ""
                else " (people: " ++ String.intercalate ", " ev.people ++ ")")))
    ∧ (∀ e : EntryRec,
      entryLine {e with events := []}
        = "- " ++ e.date.iso ++ ": " ++ pyOrStr e.summary "(no summary)"
          ++ " | " ++ "No events captured.")
    ∧ entryLine ⟨7, ⟨2024, 2, 10⟩, some "Good day", none,
        [⟨1, "Lunch with Sam", "social", 1, ["Sam"]⟩], "p"⟩
      = "- 2024-02-10: Good day | Key event: Lunch with Sam (people: Sam)" := by
  refine ⟨fun entries cov => rfl, fun entries cov => by simp [contextLines],
    fun e => ?_, fun e ev evs => rfl, fun e => rfl, by decide⟩
  obtain ⟨i, d, s, m, evs, p⟩ := e
  cases evs <;> rfl

/-- C3 counterexample: with no entries (so no metric has data), the second
line of the formatted text reads `"Averages → No metrics available."`,
not `"No metrics available."` as the claim states. -/
theorem second_line_counterexample :
    (_build_context_payload [] "No journal entries stored yet.").text
        = "No journal entries stored yet.\nAverages → No metrics available."
    ∧ (_build_context_payload [] "No journal entries stored yet.").text
        ≠ "No journal entries stored yet.\nNo metrics available." :=
  ⟨rfl, by decide⟩

/-- C3 amended: the second line of the formatted text is `"Averages → "`
followed by the metric summary: the metric averages, each labeled with its
human-readable title (`Mood Score`, `Energy Score`, `Stress Score`,
`Sleep Hours`), separated by `" | "`, in that fixed order, metrics with no
data omitted; when no metric has any data the summary after the prefix
reads `"No metrics available."`. -/
theorem second_line_is_prefixed_averages (entries : List EntryRec) (coverage_line : String) :
    contextLines entries coverage_line
        = coverage_line
          :: ("Averages → " ++ specMetricLine (contextMetrics entries))
          :: entries.map entryLine
    ∧ (_build_context_payload entries coverage_line).text
        = String.intercalate "\n" (contextLines entries coverage_line)
    ∧ specMetricLine ⟨none, none, none, none⟩ = "No metrics available." :=
  ⟨by rw [contextLines, format_metric_line_eq_spec]; rfl, rfl, rfl⟩

theorem specChunk_cons_cons (x y : ChatMessage) (t : List ChatMessage) (k : ℕ) :
    specChunk (x :: y :: t) (k + 1) = specChunk t k := by
  unfold specChunk
  have h2 : 2 * (k + 1) = (2 * k + 1) + 1 := by omega
  rw [h2]
  rfl

theorem specHistoryPairs_cons_cons (x y : ChatMessage) (t : List ChatMessage) :
    specHistoryPairs (x :: y :: t)
      = (if x.role = "user" && y.role = "assistant" then [(x.content, y.content)] else [])
        ++ specHistoryPairs t := by
  unfold specHistoryPairs
  have hlen : (x :: y :: t).length / 2 = t.length / 2 + 1 := by
    simp only [List.length_cons]
    omega
  rw [hlen, List.range_succ_eq_map, List.filterMap_cons, List.filterMap_map]
  have hcongr : List.filterMap (specChunk (x :: y :: t) ∘ Nat.succ) (List.range (t.length / 2))
      = List.filterMap (specChunk t) (List.range (t.length / 2)) :=
    List.filterMap_congr fun k _ => specChunk_cons_cons x y t k
  rw [hcongr]
  have h0 : specChunk (x :: y :: t) 0
      = if x.role = "user" && y.role = "assistant" then some (x.content, y.content) else none :=
    rfl
  rw [h0]
  cases x.role = "user" && y.role = "assistant" <;> simp

theorem pairHistory_eq_spec : ∀ history : List ChatMessage,
    pairHistory history = specHistoryPairs history
  | [] => rfl
  | [x] => by
    have h1 : specHistoryPairs [x] = [] := by
      unfold specHistoryPairs
      simp
    rw [h1]
    rfl
  | x :: y :: t => by
    rw [specHistoryPairs_cons_cons, ← pairHistory_eq_spec t]
    rfl

/-- C4: the history submitted to the chat endpoint is reduced to
(user, assistant) pairs by scanning two-at-a-time, keeping a pair exactly
when the even-indexed element has role `"user"` and the next element has
role `"assistant"`; a user/assistant/user history yields exactly one pair
with the trailing user message dropped. -/
theorem history_pairing_matches_spec :
    (∀ history : List ChatMessage, pairHistory history = specHistoryPairs history)
    ∧ pairHistory [⟨"user", "q1"⟩, ⟨"assistant", "r1"⟩, ⟨"user", "q2"⟩] = [("q1", "r1")] :=
  ⟨pairHistory_eq_spec, by decide⟩

/-- C5: a chat request whose start date is strictly after its end date is
rejected with HTTP 400, and the result does not depend on the backend
(which performs both the persistence read and the model call), so neither
executes. -/
theorem invalid_range_rejected_before_backend
    (request : ChatRequest)
    (backend backend' : String → Date → Date → Option (List (String × String)) → Except String String)
    (h : Date.ltb request.end_date request.start_date = true) :
    chatEndpoint backend request
        = Except.error (400, "Start date must be on or before end date")
    ∧ chatEndpoint backend request = chatEndpoint backend' request := by
  constructor <;> simp [chatEndpoint, h]

/-- Witness for C5: the request with `start_date=2024-02-10` and
`end_date=2024-02-01` is rejected with HTTP 400 under two observably
different backends. -/
theorem invalid_range_rejected_before_backend_witness :
    chatEndpoint (fun _ _ _ _ => Except.ok "reply")
        ⟨"hello", ⟨2024, 2, 10⟩, ⟨2024, 2, 1⟩, []⟩
      = Except.error (400, "Start date must be on or before end date")
    ∧ chatEndpoint (fun _ _ _ _ => Except.ok "reply")
          ⟨"hello", ⟨2024, 2, 10⟩, ⟨2024, 2, 1⟩, []⟩
        = chatEndpoint (fun _ _ _ _ => Except.error "backend down")
          ⟨"hello", ⟨2024, 2, 10⟩, ⟨2024, 2, 1⟩, []⟩ :=
  invalid_range_rejected_before_backend ⟨"hello", ⟨2024, 2, 10⟩, ⟨2024, 2, 1⟩, []⟩
    (fun _ _ _ _ => Except.ok "reply") (fun _ _ _ _ => Except.error "backend down")
    (by decide)

theorem encodeHistoryFrom_eq_enumFrom (history : List (String × String)) :
    ∀ i : ℕ, encodeHistoryFrom (i + 1) history
      = (history.enumFrom i).flatMap specTurnLines := by
  induction history with
  | nil => intro i; rfl
  | cons p t ih =>
    intro i
    obtain ⟨u, a⟩ := p
    rw [show List.enumFrom i ((u, a) :: t) = (i, (u, a)) :: List.enumFrom (i + 1) t from rfl,
      List.flatMap_cons, encodeHistoryFrom, ih (i + 1)]
    rfl

/-- C6: the encoded history block renders each turn as exactly two lines
`"<n>. User: <text>"` then `"<n>. Assistant: <text>"`, numbered from 1 in
chronological order, preserving the pairing without reordering or
deduplication; the concrete two-turn example renders as stated, and the
dispatcher places the block between the context markers and the user
question. -/
theorem history_block_encoding :
    (∀ history : List (String × String), encodeHistory history = specHistoryBlock history)
    ∧ encodeHistory [("a", "b"), ("c", "d")]
        = ["1. User: a", "1. Assistant: b", "2. User: c", "2. Assistant: d"]
    ∧ (∀ (context_text message : String) (turn : String × String)
        (rest : List (String × String)),
      buildChatParts context_text message (some (turn :: rest))
        = ["=== Journal Context Start ===", context_text, "=== Journal Context End ===", ""]
          ++ (["Conversation history:"] ++ encodeHistory (turn :: rest) ++ [""])
          ++ ["User question: " ++ message]) :=
  ⟨fun history => encodeHistoryFrom_eq_enumFrom history 0, by decide,
    fun context_text message turn rest => rfl⟩

/-! ### Lemmas about the JSON cleanup -/

theorem lstripL_cons_of_not_space {c : Char} (s : List Char) (h : pySpace c = false) :
    lstripL (c :: s) = c :: s := by
  simp [lstripL, List.dropWhile_cons, h]

theorem rstripL_of_getLast {s : List Char} {c : Char}
    (h1 : s.getLast? = some c) (h2 : pySpace c = false) : rstripL s = s := by
  cases hr : s.reverse with
  | nil =>
    rw [List.reverse_eq_nil_iff] at hr
    subst hr
    rfl
  | cons a r =>
    have ha : a = c := by
      have := List.head?_reverse s
      rw [hr, h1] at this
      exact (Option.some_inj.mp this)
    subst ha
    unfold rstripL
    rw [hr, List.dropWhile_cons, h2]
    simp only [Bool.false_eq_true, if_neg, ite_false]
    rw [← hr, List.reverse_reverse]

theorem pyStrip_of_ends {s : List Char} {c₁ c₂ : Char}
    (h1 : s.head? = some c₁) (hc1 : pySpace c₁ = false)
    (h2 : s.getLast? = some c₂) (hc2 : pySpace c₂ = false) : pyStrip s = s := by
  cases s with
  | nil => cases h1
  | cons a t =>
    have ha : a = c₁ := Option.some_inj.mp h1
    subst ha
    unfold pyStrip
    rw [lstripL_cons_of_not_space t hc1]
    exact rstripL_of_getLast h2 hc2

theorem clampBraces_of_delimited {s : List Char}
    (h1 : s.head? = some '{') (h2 : s.getLast? = some '}') : clampBraces s = s := by
  cases s with
  | nil => cases h1
  | cons a t =>
    have ha : a = '{' := Option.some_inj.mp h1
    subst ha
    have hfind : findIdxOf '{' ('{' :: t) = some 0 := rfl
    have hrfind : rfindIdxOf '}' ('{' :: t) = some (('{' :: t).length - 1) := by
      cases hr : ('{' :: t).reverse with
      | nil => cases (List.reverse_eq_nil_iff.mp hr)
      | cons b r =>
        have hb : b = '}' := by
          have := List.head?_reverse ('{' :: t)
          rw [hr, h2] at this
          exact Option.some_inj.mp this
        subst hb
        unfold rfindIdxOf
        rw [hr]
        rfl
    unfold clampBraces
    rw [hfind, hrfind]
    have hlen : ('{' :: t).length - 1 + 1 = ('{' :: t).length := by
      simp
    simp only [Nat.zero_le, if_pos, List.drop_zero, Nat.sub_zero, hlen, List.take_length]

theorem clean_fixes_clean_json {t : List Char}
    (h1 : pyStrip t = t) (h2 : t.head? = some '{') (h3 : t.getLast? = some '}') :
    _clean_json_response t = t := by
  cases ht : t with
  | nil => cases (ht ▸ h2)
  | cons a m =>
    subst ht
    have ha : a = '{' := Option.some_inj.mp h2
    subst ha
    have hpre : ("```".data.isPrefixOf ('{' :: m)) = false := rfl
    unfold _clean_json_response
    rw [h1]
    show pyStrip (clampBraces
        (if "```".data.isPrefixOf ('{' :: m) = true
          then dropCloseFence (dropOpenFence ('{' :: m)) else ('{' :: m))) = '{' :: m
    rw [hpre]
    simp only [Bool.false_eq_true, if_false]
    rw [clampBraces_of_delimited h2 h3, h1]

theorem dropCloseFence_strips (t : List Char) :
    dropCloseFence (t ++ "\n```".data) = t := by
  have hLast : (t ++ "\n```".data).getLast? = some '`' := by
    rw [List.getLast?_append]
    rfl
  have hr : rstripL (t ++ "\n```".data) = t ++ "\n```".data :=
    rstripL_of_getLast hLast rfl
  unfold dropCloseFence
  rw [hr]
  have hsuf : ("```".data.isSuffixOf (t ++ "\n```".data)) = true := by
    show ("```".data.reverse.isPrefixOf ((t ++ "\n```".data).reverse)) = true
    rw [List.reverse_append]
    rfl
  rw [hsuf]
  simp only [if_true]
  have hassoc : t ++ "\n```".data = (t ++ ['\n']) ++ "```".data := by
    rw [List.append_assoc]
    rfl
  rw [hassoc]
  have htake : ((t ++ ['\n']) ++ "```".data).take (((t ++ ['\n']) ++ "```".data).length - 3)
      = t ++ ['\n'] :=
    List.take_left' (by simp)
  rw [htake]
  unfold dropTrailingNewline
  rw [List.getLast?_concat]
  simp only [if_pos]
  exact List.take_left' (by simp)

theorem clean_fenced_core {t F : List Char}
    (h1 : pyStrip t = t) (h2 : t.head? = some '{') (h3 : t.getLast? = some '}')
    (hstrip : pyStrip F = F) (hpre : ("```".data.isPrefixOf F) = true)
    (hopen : dropOpenFence F = t ++ "\n```".data) :
    _clean_json_response F = t := by
  unfold _clean_json_response
  rw [hstrip]
  show pyStrip (clampBraces
      (if "```".data.isPrefixOf F = true
        then dropCloseFence (dropOpenFence F) else F)) = t
  rw [hpre]
  simp only [if_true]
  rw [hopen, dropCloseFence_strips, clampBraces_of_delimited h2 h3, h1]

/-- C7: the extraction response cleanup is idempotent on already-clean
JSON object text (stripped, starting with `{`, ending with `}`), and a
response wrapped in a fenced code block — with or without the `json`
language tag — is reduced to the inner JSON object. -/
theorem json_cleanup_idempotent {t : List Char}
    (h1 : pyStrip t = t) (h2 : t.head? = some '{') (h3 : t.getLast? = some '}') :
    _clean_json_response t = t
    ∧ _clean_json_response (_clean_json_response t) = _clean_json_response t
    ∧ _clean_json_response ("```json\n".data ++ t ++ "\n```".data) = t
    ∧ _clean_json_response ("```\n".data ++ t ++ "\n```".data) = t := by
  have hc := clean_fixes_clean_json h1 h2 h3
  cases t with
  | nil => cases h2
  | cons a m =>
    have ha : a = '{' := Option.some_inj.mp h2
    subst ha
    have hlast : ∀ pre : List Char,
        ((pre ++ ('{' :: m)) ++ "\n```".data).getLast? = some '`' := by
      intro pre
      rw [List.getLast?_append]
      rfl
    refine ⟨hc, by rw [hc, hc], ?_, ?_⟩
    · exact clean_fenced_core h1 h2 h3
        (pyStrip_of_ends rfl rfl (hlast "```json\n".data) rfl) rfl rfl
    · exact clean_fenced_core h1 h2 h3
        (pyStrip_of_ends rfl rfl (hlast "```\n".data) rfl) rfl rfl

/-- Witness for C7 on the concrete object text `{"a": 1}`. -/
theorem json_cleanup_idempotent_witness :
    _clean_json_response "\x7b\"a\": 1\x7d".data = "\x7b\"a\": 1\x7d".data
    ∧ _clean_json_response ("```json\n".data ++ "\x7b\"a\": 1\x7d".data ++ "\n```".data)
        = "\x7b\"a\": 1\x7d".data :=
  ⟨(json_cleanup_idempotent (by decide) (by decide) (by decide)).1,
    (json_cleanup_idempotent (by decide) (by decide) (by decide)).2.2.1⟩

/-- C8: when the cleaned model response fails JSON parsing, extraction
raises an error carrying the parse detail and the first 500 characters of
the raw response, and ingestion of that entry aborts with the stored
state unchanged — no partial record is committed. -/
theorem parse_failure_aborts_ingest
    (parseJson : List Char → Except (List Char) RawMetadata)
    (llm : String → List Char) (contentHash : String → String)
    (store : Store) (path text : String) (entry_date : Date) (skip_if_unchanged : Bool)
    (e : List Char)
    (hparse : parseJson (_clean_json_response (llm text)) = Except.error e)
    (hsingle : ∀ ex, store.entries.filter (fun en => en.source_path = path) = [ex]
      → ¬(skip_if_unchanged = true ∧ ex.file_hash = contentHash text))
    (hlen : (store.entries.filter (fun en => en.source_path = path)).length ≤ 1) :
    extract_journal_metadata parseJson (llm text)
        = Except.error ("Failed to parse Ollama JSON: ".data ++ e ++ "\nRaw: ".data
            ++ (llm text).take 500)
    ∧ ingest_journal (fun t => extract_journal_metadata parseJson (llm t)) contentHash
          store path text entry_date skip_if_unchanged
        = (store, Except.error ("Failed to parse Ollama JSON: ".data ++ e ++ "\nRaw: ".data
            ++ (llm text).take 500)) := by
  have hext : extract_journal_metadata parseJson (llm text)
      = Except.error ("Failed to parse Ollama JSON: ".data ++ e ++ "\nRaw: ".data
          ++ (llm text).take 500) := by
    unfold extract_journal_metadata
    rw [hparse]
  refine ⟨hext, ?_⟩
  cases hf : store.entries.filter (fun en => en.source_path = path) with
  | nil =>
    simp [ingest_journal, hf, hext]
  | cons ex tl =>
    cases tl with
    | nil =>
      have hb : (skip_if_unchanged && decide (ex.file_hash = contentHash text)) = false := by
        cases skip_if_unchanged with
        | false => rfl
        | true =>
          rw [Bool.true_and]
          exact decide_eq_false fun hh => hsingle ex hf ⟨rfl, hh⟩
      simp [ingest_journal, hf, hb, hext]
    | cons ex2 tl2 =>
      rw [hf] at hlen
      simp at hlen

/-- Witness for C8: a parser that always fails aborts a fresh ingestion
with the bounded-preview error and an unchanged empty store. -/
theorem parse_failure_aborts_ingest_witness :
    ingest_journal
        (fun t => extract_journal_metadata (fun _ => Except.error "boom".data)
          ((fun _ => "oops".data) t))
        (fun _ => "h") ⟨[]⟩ "p" "t" ⟨2024, 1, 1⟩ true
      = (⟨[]⟩, Except.error ("Failed to parse Ollama JSON: ".data ++ "boom".data
          ++ "\nRaw: ".data ++ "oops".data.take 500)) :=
  (parse_failure_aborts_ingest (fun _ => Except.error "boom".data)
    (fun _ => "oops".data) (fun _ => "h") ⟨[]⟩ "p" "t" ⟨2024, 1, 1⟩ true "boom".data
    rfl (fun ex hx => List.noConfusion hx) (by decide)).2

/-- C9 counterexample: a 404 response — a non-success status — is not
propagated as an error; it is converted into a successful empty record
set, discarding even the decoded body. -/
theorem whoop_404_counterexample :
    whoopGet (⟨404, ⟨[7], some "tok"⟩⟩ : WhoopResponse ℕ) = Except.ok ⟨[], none⟩
    ∧ (whoopGet (⟨404, ⟨[7], some "tok"⟩⟩ : WhoopResponse ℕ)).isOk = true :=
  ⟨rfl, rfl⟩

/-- C9 amended: a non-success status other than 404 is propagated as an
error carrying the status detail (never converted into a success); the
single-call embedding performs no retry. -/
theorem whoop_non_success_raises {α : Type} (response : WhoopResponse α)
    (hns : ¬(200 ≤ response.status_code ∧ response.status_code < 300))
    (h404 : response.status_code ≠ 404) :
    whoopGet response = Except.error (httpStatusDetail response.status_code) := by
  unfold whoopGet
  rw [if_neg h404, if_neg hns]

/-- Witness for the amended C9 at a concrete 500 response. -/
theorem whoop_non_success_raises_witness :
    whoopGet (⟨500, ⟨[], none⟩⟩ : WhoopResponse ℕ) = Except.error (httpStatusDetail 500) :=
  whoop_non_success_raises (⟨500, ⟨[], none⟩⟩ : WhoopResponse ℕ) (by decide) (by decide)

/-- C10: when an entry with the same source path exists, skipping is
enabled and the stored hash equals the hash of the current text,
ingestion returns `false`, leaves the store unchanged, and never invokes
the extraction model (the result is independent of it). -/
theorem unchanged_file_skipped
    (extract extract' : String → Except (List Char) RawMetadata)
    (contentHash : String → String) (store : Store) (path text : String)
    (entry_date : Date) (ex : StoredEntry)
    (hfind : store.entries.filter (fun en => en.source_path = path) = [ex])
    (hhash : ex.file_hash = contentHash text) :
    ingest_journal extract contentHash store path text entry_date true
        = (store, Except.ok false)
    ∧ ingest_journal extract contentHash store path text entry_date true
        = ingest_journal extract' contentHash store path text entry_date true := by
  have key : ∀ f : String → Except (List Char) RawMetadata,
      ingest_journal f contentHash store path text entry_date true
        = (store, Except.ok false) := by
    intro f
    simp [ingest_journal, hfind, hhash]
  exact ⟨key extract, (key extract).trans (key extract').symm⟩

/-- Witness for C10: a store holding the matching hashed entry is
untouched under two observably different extraction backends. -/
theorem unchanged_file_skipped_witness :
    ingest_journal (fun _ => Except.ok ⟨none, none, none⟩) (fun _ => "h")
        ⟨[⟨⟨2024, 1, 1⟩, "p", "t", "h", none, []⟩]⟩ "p" "t" ⟨2024, 2, 2⟩ true
      = (⟨[⟨⟨2024, 1, 1⟩, "p", "t", "h", none, []⟩]⟩, Except.ok false)
    ∧ ingest_journal (fun _ => Except.ok ⟨none, none, none⟩) (fun _ => "h")
          ⟨[⟨⟨2024, 1, 1⟩, "p", "t", "h", none, []⟩]⟩ "p" "t" ⟨2024, 2, 2⟩ true
        = ingest_journal (fun _ => Except.error "x".data) (fun _ => "h")
          ⟨[⟨⟨2024, 1, 1⟩, "p", "t", "h", none, []⟩]⟩ "p" "t" ⟨2024, 2, 2⟩ true :=
  unchanged_file_skipped (fun _ => Except.ok ⟨none, none, none⟩)
    (fun _ => Except.error "x".data) (fun _ => "h")
    ⟨[⟨⟨2024, 1, 1⟩, "p", "t", "h", none, []⟩]⟩ "p" "t" ⟨2024, 2, 2⟩
    ⟨⟨2024, 1, 1⟩, "p", "t", "h", none, []⟩ (by decide) rfl

end JournaLLM
